import Mathlib

/-!
Verification of the route-optimization core of the Vehicle_Routing_Cpp
repository (src/backend/vrp_solver.py) against its specification.

The solver object `VRPSolver` accumulates a location list and a list of
pickup/delivery index pairs; `solve` validates the instance, builds a
distance matrix, posts a single-vehicle pickup-and-delivery model to the
OR-Tools routing engine, and extracts the returned visiting order into a
tagged route description.  The OR-Tools engine itself is an external
library, outside this repository; its search is modelled below as an
oracle that either returns no assignment or returns a visiting order,
and the constraints the source posts to the engine (single vehicle
starting and ending at depot 0, every node visited exactly once, each
pickup visited before its delivery) are captured by the predicate
`FeasibleRoute` on oracle-returned orders.
-/

/-- The solver state, from `VRPSolver.__init__`: a location list, an
optional cached distance matrix (write-only cache, set by
`_compute_distance_matrix`), and the list of pickup/delivery index
pairs.  Locations are kept polymorphic (`alpha`); the Python code treats
them as opaque pairs except inside the distance computation, which is
modelled separately over real pairs. -/
structure VRPSolver (alpha : Type) where
  locations : List alpha
  distance_matrix : Option (List (List Real))
  pickups_deliveries : List (Nat × Nat)

namespace VRPSolver

/-- Fresh solver, from `VRPSolver.__init__`. -/
def init (alpha : Type) : VRPSolver alpha :=
  { locations := [], distance_matrix := none, pickups_deliveries := [] }

/-- `add_driver_location`: `self.locations = [location]`. -/
def add_driver_location (s : VRPSolver alpha) (location : alpha) : VRPSolver alpha :=
  { s with locations := [location] }

/-- `add_passenger`: append the pickup location (at index `len(locations)`),
then the dropoff location (at the new `len(locations)`), then record the
pair of the two freshly used indices. -/
def add_passenger (s : VRPSolver alpha) (pickup_location dropoff_location : alpha) :
    VRPSolver alpha :=
  { s with
    locations := s.locations ++ [pickup_location, dropoff_location]
    pickups_deliveries :=
      s.pickups_deliveries ++ [(s.locations.length, s.locations.length + 1)] }

/-- A solver state populated through the public API: one
`add_driver_location` call followed by one `add_passenger` call per
element of `ps` (as done by the `/api/solve` handler in
src/backend/app.py). -/
def buildState (depot : alpha) (ps : List (alpha × alpha)) : VRPSolver alpha :=
  ps.foldl (fun s pr => s.add_passenger pr.1 pr.2)
    ((init alpha).add_driver_location depot)

/-- The scan loop of `_get_location_type`: walk the pair list in order;
for each pair first compare against its pickup index, then against its
delivery index. -/
def scanPairs (index : Nat) : List (Nat × Nat) → String
  | [] => "unknown"
  | (p, d) :: rest =>
    if index = p then "pickup"
    else if index = d then "dropoff"
    else scanPairs index rest

/-- `_get_location_type`: index 0 is the driver; otherwise scan the
recorded pairs. -/
def getLocationType (s : VRPSolver alpha) (index : Nat) : String :=
  if index = 0 then "driver" else scanPairs index s.pickups_deliveries

/-- The tagging rule as the specification words it (section 4.5): index
0 is `driver`; otherwise `pickup` if the index equals the pickup index
of SOME recorded pair; otherwise `dropoff` if it equals the dropoff
index of some pair; otherwise `unknown`.  Kept separate from
`getLocationType` (the source scan) so the two can be compared. -/
def specLocationTag (s : VRPSolver alpha) (index : Nat) : String :=
  if index = 0 then "driver"
  else if index ∈ s.pickups_deliveries.map Prod.fst then "pickup"
  else if index ∈ s.pickups_deliveries.map Prod.snd then "dropoff"
  else "unknown"

/-- One stop of the extracted route: the dictionary
`{"index": ..., "location": ..., "type": ...}` built in `solve`. -/
structure Stop (alpha : Type) where
  index : Nat
  location : alpha
  type : String
deriving DecidableEq

/-- The dictionary returned by a successful `solve`: the visited route
plus the flat index-ordered location listing. -/
structure Solution (alpha : Type) where
  route : List (Stop alpha)
  locations : List (Stop alpha)
deriving DecidableEq

/-- The input-validation failure of `solve` (raised as `ValueError` in
the source, named `InsufficientLocationsError` by the specification),
carrying the offending location count. -/
inductive SolveError
  | insufficientLocations (got : Nat)
deriving DecidableEq

/-- The contract of the OR-Tools routing engine for the model `solve`
posts (external library, not part of this repository): with
`RoutingIndexManager(n, 1, 0)` there is a single vehicle starting at
depot node 0; no disjunctions are added, so every node must be visited
exactly once; `AddPickupAndDelivery` plus the posted cumulative-distance
inequality force each pickup to be visited before its delivery.  An
assignment returned by the engine therefore corresponds to a visiting
order `r` satisfying this predicate. -/
def FeasibleRoute (s : VRPSolver alpha) (r : List Nat) : Prop :=
  r.head? = some 0 ∧
  r.length = s.locations.length ∧
  r.Nodup ∧
  (∀ i < s.locations.length, i ∈ r) ∧
  ∀ pr ∈ s.pickups_deliveries, r.indexOf pr.1 < r.indexOf pr.2

instance (s : VRPSolver alpha) (r : List Nat) : Decidable (FeasibleRoute s r) := by
  unfold FeasibleRoute
  infer_instance

/-- `solve`, with the OR-Tools search abstracted as `oracle`: first the
validation guard (`len(self.locations) < 9` raises), then the engine is
consulted; `None` from the engine is returned as `none`, and an
assignment is extracted by walking the visiting order, tagging each
node, and appending the final return to depot with the hard-coded
`driver` tag.  The distance matrix influences only which order the
engine prefers, not the shape of the extraction, so it does not appear
here; it is modelled separately below. -/
def solve [Inhabited alpha] (s : VRPSolver alpha) (oracle : Option (List Nat)) :
    Except SolveError (Option (Solution alpha)) :=
  if s.locations.length < 9 then
    .error (.insufficientLocations s.locations.length)
  else
    match oracle with
    | none => .ok none
    | some r =>
      .ok (some
        { route :=
            r.map (fun i =>
              { index := i
                location := s.locations.getD i default
                type := s.getLocationType i }) ++
            [{ index := 0
               location := s.locations.getD 0 default
               type := "driver" }]
          locations :=
            (List.range s.locations.length).map (fun i =>
              { index := i
                location := s.locations.getD i default
                type := s.getLocationType i }) })

/-- `_calculate_distance`: unpack the two coordinate pairs as
`(lon, lat)` and return
`((lon2 - lon1)**2 + (lat2 - lat1)**2) ** 0.5 * 111000`, the flat-plane
Euclidean distance scaled to approximate meters (Python `** 0.5` is the
real power, modelled by `Real.rpow`). -/
noncomputable def _calculate_distance (point1 point2 : Real × Real) : Real :=
  ((point2.1 - point1.1) ^ 2 + (point2.2 - point1.2) ^ 2) ^ (0.5 : Real) * 111000

/-- Truncation toward zero: the behaviour of numpy `astype(int)` on a
float value. -/
noncomputable def astypeInt (x : Real) : Int :=
  if 0 ≤ x then ⌊x⌋ else -⌊-x⌋

/-- The float table `_compute_distance_matrix` fills into
`self.distance_matrix`: `np.zeros((n, n))`, then entry (i, j) with
`i != j` is set to the pairwise distance, so the diagonal keeps its
initial zero. -/
noncomputable def distanceMatrixEntry (locs : List (Real × Real)) (i j : Nat) : Real :=
  if i ≠ j then _calculate_distance (locs.getD i (0, 0)) (locs.getD j (0, 0)) else 0

/-- The table returned by `_compute_distance_matrix`:
`self.distance_matrix.astype(int).tolist()`, viewed as an index map. -/
noncomputable def _compute_distance_matrix (locs : List (Real × Real)) (i j : Nat) : Int :=
  astypeInt (distanceMatrixEntry locs i j)

end VRPSolver

namespace VRPSolver

variable {alpha : Type}

theorem calculate_distance_comm (p q : Real × Real) :
    _calculate_distance p q = _calculate_distance q p := by
  unfold _calculate_distance
  ring_nf

theorem calculate_distance_base_nonneg (p q : Real × Real) :
    0 ≤ (q.1 - p.1) ^ 2 + (q.2 - p.2) ^ 2 := by
  positivity

theorem foldl_add_passenger_locations (ps : List (alpha × alpha)) (s : VRPSolver alpha) :
    (ps.foldl (fun t pr => t.add_passenger pr.1 pr.2) s).locations.length
      = s.locations.length + 2 * ps.length := by
  induction ps generalizing s with
  | nil => simp
  | cons hd tl ih =>
      rw [List.foldl_cons, ih]
      simp [add_passenger]
      omega

theorem foldl_add_passenger_pairs (ps : List (alpha × alpha)) (s : VRPSolver alpha) :
    (ps.foldl (fun t pr => t.add_passenger pr.1 pr.2) s).pickups_deliveries
      = s.pickups_deliveries ++
        (List.range ps.length).map
          (fun i => (s.locations.length + 2 * i, s.locations.length + 2 * i + 1)) := by
  induction ps generalizing s with
  | nil => simp
  | cons hd tl ih =>
      rw [List.foldl_cons, ih]
      have hlen : (s.add_passenger hd.1 hd.2).locations.length = s.locations.length + 2 := by
        simp [add_passenger]
      have hpd : (s.add_passenger hd.1 hd.2).pickups_deliveries
          = s.pickups_deliveries ++ [(s.locations.length, s.locations.length + 1)] := rfl
      rw [hpd, hlen, List.append_assoc]
      congr 1
      have hc : (hd :: tl).length = tl.length + 1 := rfl
      rw [hc, List.range_succ_eq_map, List.map_cons]
      simp only [List.map_map, List.singleton_append]
      congr 1
      simp
      intro a ha
      omega

theorem buildState_locations_length (depot : alpha) (ps : List (alpha × alpha)) :
    (buildState depot ps).locations.length = 2 * ps.length + 1 := by
  unfold buildState
  rw [foldl_add_passenger_locations]
  simp [add_driver_location, init]
  omega

theorem buildState_pairs (depot : alpha) (ps : List (alpha × alpha)) :
    (buildState depot ps).pickups_deliveries
      = (List.range ps.length).map (fun i => (2 * i + 1, 2 * i + 2)) := by
  unfold buildState
  rw [foldl_add_passenger_pairs]
  simp [add_driver_location, init]
  intro a ha
  omega

theorem buildState_pair_mem (depot : alpha) (ps : List (alpha × alpha))
    (pr : Nat × Nat) (h : pr ∈ (buildState depot ps).pickups_deliveries) :
    ∃ i, i < ps.length ∧ pr = (2 * i + 1, 2 * i + 2) := by
  rw [buildState_pairs] at h
  rcases List.mem_map.mp h with ⟨i, hi, rfl⟩
  exact ⟨i, List.mem_range.mp hi, rfl⟩

theorem scanPairs_eq_spec (index : Nat) (l : List (Nat × Nat))
    (h : ∀ pr ∈ l, ∀ qr ∈ l, pr.1 ≠ qr.2) :
    scanPairs index l
      = if index ∈ l.map Prod.fst then "pickup"
        else if index ∈ l.map Prod.snd then "dropoff"
        else "unknown" := by
  induction l with
  | nil => simp [scanPairs]
  | cons hd tl ih =>
      obtain ⟨p, d⟩ := hd
      have hrest : ∀ pr ∈ tl, ∀ qr ∈ tl, pr.1 ≠ qr.2 := fun pr hpr qr hqr =>
        h pr (List.mem_cons_of_mem _ hpr) qr (List.mem_cons_of_mem _ hqr)
      by_cases hp : index = p
      · subst hp
        simp [scanPairs]
      · by_cases hdd : index = d
        · have hnotfst : index ∉ tl.map Prod.fst := by
            intro hmem
            rcases List.mem_map.mp hmem with ⟨pr, hpr, hpr1⟩
            exact h pr (List.mem_cons_of_mem _ hpr) (p, d)
              (List.mem_cons_self _ _) (hpr1.trans hdd)
          subst hdd
          simp [scanPairs, hp, hnotfst]
        · have h1 : index ∈ p :: List.map Prod.fst tl ↔ index ∈ List.map Prod.fst tl := by
            simp [hp]
          have h2 : index ∈ d :: List.map Prod.snd tl ↔ index ∈ List.map Prod.snd tl := by
            simp [hdd]
          simp only [scanPairs, if_neg hp, if_neg hdd, List.map_cons, ih hrest, h1, h2]

/-- C8: for every solver state and every location value,
`add_driver_location` (the `setDepot` of the specification) resets the
location list to exactly the one-element list holding the given
location, regardless of how many locations were present before. -/
theorem add_driver_location_resets (s : VRPSolver alpha) (location : alpha) :
    (s.add_driver_location location).locations = [location] := rfl

/-- C3: `add_passenger` appends exactly the two given locations, the
pickup at index n (the old length) and the dropoff at index n + 1, and
records the pair (n, n + 1); an immediately following second call
records (n + 2, n + 3), so pair indices are monotonically increasing
across successive `add_passenger` calls. -/
theorem add_passenger_appends (s : VRPSolver alpha) (p d q e : alpha) :
    (s.add_passenger p d).locations = s.locations ++ [p, d] ∧
    (s.add_passenger p d).locations[s.locations.length]? = some p ∧
    (s.add_passenger p d).locations[s.locations.length + 1]? = some d ∧
    (s.add_passenger p d).pickups_deliveries
      = s.pickups_deliveries ++ [(s.locations.length, s.locations.length + 1)] ∧
    ((s.add_passenger p d).add_passenger q e).pickups_deliveries
      = s.pickups_deliveries ++
        [(s.locations.length, s.locations.length + 1),
         (s.locations.length + 2, s.locations.length + 3)] := by
  refine ⟨rfl, ?_, ?_, rfl, ?_⟩
  · show (s.locations ++ [p, d])[s.locations.length]? = some p
    rw [List.getElem?_append_right (le_refl _)]
    simp
  · show (s.locations ++ [p, d])[s.locations.length + 1]? = some d
    rw [List.getElem?_append_right (by omega)]
    simp
  · simp [add_passenger, List.append_assoc]

/-- C10: after one `add_driver_location` call followed by k
`add_passenger` calls, the location list has length exactly 2k + 1 and
the recorded pairs are exactly (1,2), (3,4), ..., (2k-1, 2k): every
pickup index is odd, every dropoff index is its pickup index plus one,
all pair indices are nonzero, within the location list bounds, and
distinct across distinct pairs. -/
theorem buildState_invariant (depot : alpha) (ps : List (alpha × alpha)) :
    (buildState depot ps).locations.length = 2 * ps.length + 1 ∧
    (buildState depot ps).pickups_deliveries
      = (List.range ps.length).map (fun i => (2 * i + 1, 2 * i + 2)) ∧
    (∀ pr ∈ (buildState depot ps).pickups_deliveries,
      pr.1 % 2 = 1 ∧ pr.2 = pr.1 + 1 ∧ pr.1 ≠ 0 ∧ pr.2 ≠ 0 ∧
      pr.1 < (buildState depot ps).locations.length ∧
      pr.2 < (buildState depot ps).locations.length) ∧
    (∀ pr ∈ (buildState depot ps).pickups_deliveries,
      ∀ qr ∈ (buildState depot ps).pickups_deliveries, pr ≠ qr →
      pr.1 ≠ qr.1 ∧ pr.1 ≠ qr.2 ∧ pr.2 ≠ qr.1 ∧ pr.2 ≠ qr.2) := by
  refine ⟨buildState_locations_length depot ps, buildState_pairs depot ps, ?_, ?_⟩
  · intro pr hpr
    obtain ⟨i, hi, rfl⟩ := buildState_pair_mem depot ps pr hpr
    rw [buildState_locations_length]
    refine ⟨?_, rfl, ?_, ?_, ?_, ?_⟩ <;> simp <;> omega
  · intro pr hpr qr hqr hne
    obtain ⟨i, hi, rfl⟩ := buildState_pair_mem depot ps pr hpr
    obtain ⟨j, hj, rfl⟩ := buildState_pair_mem depot ps qr hqr
    have hij : i ≠ j := by
      intro hc
      subst hc
      exact hne rfl
    refine ⟨?_, ?_, ?_, ?_⟩ <;> simp <;> omega

theorem buildState_invariant_witness :
    ((1 : Nat), (2 : Nat)).1 % 2 = 1 ∧ ((1 : Nat), (2 : Nat)).2 = ((1 : Nat), (2 : Nat)).1 + 1 ∧
    ((1 : Nat), (2 : Nat)).1 ≠ 0 ∧ ((1 : Nat), (2 : Nat)).2 ≠ 0 ∧
    ((1 : Nat), (2 : Nat)).1 < (buildState (0 : Nat) [(1, 2), (3, 4)]).locations.length ∧
    ((1 : Nat), (2 : Nat)).2 < (buildState (0 : Nat) [(1, 2), (3, 4)]).locations.length :=
  (buildState_invariant (0 : Nat) [(1, 2), (3, 4)]).2.2.1 (1, 2) (by decide)

/-- C9: `add_driver_location` touches only the locations field: the
recorded pickup/delivery pairs survive the call unchanged, so calling
it after passengers were added shrinks the location list to length 1
while the stale pairs (all indices at least 1) index past its end. -/
theorem add_driver_location_frame (s : VRPSolver alpha) (location depot : alpha)
    (ps : List (alpha × alpha)) (hps : ps ≠ []) :
    (s.add_driver_location location).pickups_deliveries = s.pickups_deliveries ∧
    ((buildState depot ps).add_driver_location location).pickups_deliveries
      = (buildState depot ps).pickups_deliveries ∧
    ((buildState depot ps).add_driver_location location).pickups_deliveries ≠ [] ∧
    ((buildState depot ps).add_driver_location location).locations.length = 1 ∧
    ∀ pr ∈ ((buildState depot ps).add_driver_location location).pickups_deliveries,
      ((buildState depot ps).add_driver_location location).locations.length ≤ pr.1 ∧
      ((buildState depot ps).add_driver_location location).locations.length ≤ pr.2 := by
  refine ⟨rfl, rfl, ?_, rfl, ?_⟩
  · show (buildState depot ps).pickups_deliveries ≠ []
    rw [buildState_pairs]
    simp
    exact hps
  · intro pr hpr
    obtain ⟨i, hi, rfl⟩ := buildState_pair_mem depot ps pr hpr
    constructor <;> simp [add_driver_location]

theorem add_driver_location_frame_witness :
    ((VRPSolver.mk [(5 : Nat)] none [(1, 2)]).add_driver_location 7).pickups_deliveries
      = [(1, 2)] ∧
    (((buildState (0 : Nat) [(1, 2)]).add_driver_location 7).locations.length ≤ ((1 : Nat), (2 : Nat)).1 ∧
     ((buildState (0 : Nat) [(1, 2)]).add_driver_location 7).locations.length ≤ ((1 : Nat), (2 : Nat)).2) :=
  ⟨(add_driver_location_frame (VRPSolver.mk [(5 : Nat)] none [(1, 2)]) 7 0 [(1, 2)]
      (by decide)).1,
   (add_driver_location_frame (VRPSolver.mk [(5 : Nat)] none [(1, 2)]) 7 0 [(1, 2)]
      (by decide)).2.2.2.2 (1, 2) (by decide)⟩

/-- C2: whenever the location count is below the configured minimum of
9 (depot plus two locations for each of the 4 required passengers),
`solve` signals the insufficient-locations input-validation error —
carrying the offending count — without consulting the search engine at
all; in particular every zero-passenger state (location count 1)
errors. -/
theorem solve_insufficient_locations [Inhabited alpha] (s : VRPSolver alpha)
    (oracle : Option (List Nat)) (h : s.locations.length < 9) :
    s.solve oracle = .error (.insufficientLocations s.locations.length) := by
  unfold solve
  rw [if_pos h]

theorem solve_insufficient_locations_witness :
    (buildState (0 : Nat) []).solve none
      = .error (.insufficientLocations 1) :=
  solve_insufficient_locations (buildState (0 : Nat) []) none (by decide)

/-- C5: for every pair of coordinates the point-to-point cost equals
the planar Euclidean distance sqrt((lon2 - lon1)^2 + (lat2 - lat1)^2)
multiplied by the fixed constant 111000; consequently the cost is
non-negative and symmetric in its two arguments. -/
theorem calculate_distance_spec (p q : Real × Real) :
    _calculate_distance p q
      = Real.sqrt ((q.1 - p.1) ^ 2 + (q.2 - p.2) ^ 2) * 111000 ∧
    0 ≤ _calculate_distance p q ∧
    _calculate_distance p q = _calculate_distance q p := by
  have hsqrt : ((q.1 - p.1) ^ 2 + (q.2 - p.2) ^ 2) ^ (0.5 : Real)
      = Real.sqrt ((q.1 - p.1) ^ 2 + (q.2 - p.2) ^ 2) := by
    rw [Real.sqrt_eq_rpow]
    norm_num
  refine ⟨?_, ?_, calculate_distance_comm p q⟩
  · unfold _calculate_distance
    rw [hsqrt]
  · unfold _calculate_distance
    rw [hsqrt]
    positivity

/-- C4: for every list of locations, the integer matrix returned by
`_compute_distance_matrix` is symmetric (entry (i, j) equals entry
(j, i)) and zero on every diagonal entry (i, i), for all indices. -/
theorem compute_distance_matrix_symm_diag (locs : List (Real × Real)) (i j : Nat) :
    _compute_distance_matrix locs i j = _compute_distance_matrix locs j i ∧
    _compute_distance_matrix locs i i = 0 := by
  constructor
  · unfold _compute_distance_matrix distanceMatrixEntry
    by_cases hij : i = j
    · subst hij
      rfl
    · rw [if_pos hij, if_pos (Ne.symm hij), calculate_distance_comm]
  · unfold _compute_distance_matrix distanceMatrixEntry
    rw [if_neg (by simp)]
    unfold astypeInt
    rw [if_pos le_rfl]
    exact Int.floor_zero

/-- C6: counterexample to the claimed tag priority. The claim orders
the checks as: pickup of SOME pair first, then dropoff of some pair.
The code instead scans the pair list once, checking each pair first
against its pickup and then against its dropoff before moving on. On a
state whose pair list is [(1, 2), (2, 3)], index 2 is the dropoff of
the first pair and the pickup of the second: the code tags it
`dropoff`, the claimed rule tags it `pickup`. -/
theorem get_location_type_priority_cex :
    getLocationType (VRPSolver.mk ([] : List Nat) none [(1, 2), (2, 3)]) 2 = "dropoff" ∧
    specLocationTag (VRPSolver.mk ([] : List Nat) none [(1, 2), (2, 3)]) 2 = "pickup" ∧
    getLocationType (VRPSolver.mk ([] : List Nat) none [(1, 2), (2, 3)]) 2
      ≠ specLocationTag (VRPSolver.mk ([] : List Nat) none [(1, 2), (2, 3)]) 2 := by
  refine ⟨rfl, rfl, ?_⟩
  decide

/-- C6 (amended): for every solver state in which no recorded pickup
index coincides with any recorded dropoff index — true of every state
reachable through the API, whose pickups are odd and dropoffs even —
and for every location index, the computed tag follows the claimed
rule: index 0 is `driver`; otherwise `pickup` if the index equals the
pickup index of some recorded pair; otherwise `dropoff` if it equals
the dropoff index of some pair; otherwise `unknown`. -/
theorem get_location_type_eq_spec (s : VRPSolver alpha)
    (h : ∀ pr ∈ s.pickups_deliveries, ∀ qr ∈ s.pickups_deliveries, pr.1 ≠ qr.2)
    (index : Nat) :
    s.getLocationType index = s.specLocationTag index := by
  unfold getLocationType specLocationTag
  by_cases h0 : index = 0
  · simp [h0]
  · rw [if_neg h0, if_neg h0, scanPairs_eq_spec index _ h]

theorem get_location_type_eq_spec_witness :
    (buildState (0 : Nat) [(10, 11), (12, 13)]).getLocationType 3
      = (buildState (0 : Nat) [(10, 11), (12, 13)]).specLocationTag 3 :=
  get_location_type_eq_spec (buildState (0 : Nat) [(10, 11), (12, 13)]) (by decide) 3

theorem solve_some_eq [Inhabited alpha] (s : VRPSolver alpha) (r : List Nat)
    (h : ¬ s.locations.length < 9) :
    ∃ out : Solution alpha, s.solve (some r) = .ok (some out) ∧
      out.route.map Stop.index = r ++ [0] ∧
      out.route.length = r.length + 1 ∧
      out.locations = (List.range s.locations.length).map (fun i =>
        { index := i, location := s.locations.getD i default,
          type := s.getLocationType i }) := by
  unfold solve
  rw [if_neg h]
  refine ⟨_, rfl, ?_, ?_, rfl⟩
  · have hfun : (Stop.index ∘ fun i =>
        ({ index := i, location := s.locations.getD i default,
           type := s.getLocationType i } : Stop alpha)) = fun i : Nat => i := rfl
    rw [List.map_append, List.map_map, hfun, List.map_id']
    rfl
  · simp

/-- C7: once validation passes, `solve` maps the engine returning no
assignment to the explicit no-solution value `none` (an ordinary
return, distinct from the raised validation error), and every non-none
result carries both a nonempty route sequence and a flat index-ordered
location listing in which entry i has index i, the tag computed for i,
and the i-th stored coordinate. -/
theorem solve_no_solution_signal [Inhabited alpha] (s : VRPSolver alpha)
    (h : ¬ s.locations.length < 9) :
    s.solve none = .ok none ∧
    ∀ r : List Nat, ∃ out : Solution alpha,
      s.solve (some r) = .ok (some out) ∧
      out.route ≠ [] ∧
      out.locations.length = s.locations.length ∧
      ∀ i < s.locations.length,
        out.locations[i]? = some
          { index := i, location := s.locations.getD i default,
            type := s.getLocationType i } := by
  constructor
  · unfold solve
    rw [if_neg h]
  · intro r
    obtain ⟨out, hs, hmap, hroutelen, hlocs⟩ := solve_some_eq s r h
    refine ⟨out, hs, ?_, ?_, ?_⟩
    · intro hnil
      rw [hnil] at hroutelen
      simp at hroutelen
    · rw [hlocs]
      simp
    · intro i hi
      rw [hlocs]
      simp [List.getElem?_map, List.getElem?_range, hi]

theorem solve_no_solution_signal_witness :
    (buildState (0 : Nat) [(1, 2), (3, 4), (5, 6), (7, 8)]).solve none = .ok none :=
  (solve_no_solution_signal (buildState (0 : Nat) [(1, 2), (3, 4), (5, 6), (7, 8)])
    (by decide)).1

/-- C1: for every instance built from a depot and at least the minimum
4 passenger pairs, and every assignment the search engine can return
for the posted constraints (captured by `FeasibleRoute`), `solve`
succeeds, and the extracted route starts at index 0, ends at index 0,
has exactly n + 1 stops, visits every non-depot location index exactly
once, and places every recorded pickup strictly before its paired
dropoff. -/
theorem solve_route_correct [Inhabited alpha] (depot : alpha)
    (ps : List (alpha × alpha)) (hps : 4 ≤ ps.length) (r : List Nat)
    (hr : FeasibleRoute (buildState depot ps) r) :
    ∃ out : Solution alpha,
      (buildState depot ps).solve (some r) = .ok (some out) ∧
      (out.route.map Stop.index).head? = some 0 ∧
      (out.route.map Stop.index).getLast? = some 0 ∧
      out.route.length = (buildState depot ps).locations.length + 1 ∧
      (∀ i, 0 < i → i < (buildState depot ps).locations.length →
        (out.route.map Stop.index).count i = 1) ∧
      ∀ pr ∈ (buildState depot ps).pickups_deliveries,
        (out.route.map Stop.index).indexOf pr.1
          < (out.route.map Stop.index).indexOf pr.2 := by
  obtain ⟨hhead, hrlen, hnodup, hmem, hprec⟩ := hr
  have hn := buildState_locations_length depot ps
  have h9 : ¬ (buildState depot ps).locations.length < 9 := by omega
  obtain ⟨out, hs, hmap, hroutelen, _⟩ := solve_some_eq (buildState depot ps) r h9
  refine ⟨out, hs, ?_, ?_, ?_, ?_, ?_⟩
  · rw [hmap]
    cases r with
    | nil => simp at hhead
    | cons a t =>
        simp only [List.head?_cons, Option.some.injEq] at hhead
        simp [hhead]
  · rw [hmap]
    exact List.getLast?_concat _
  · rw [hroutelen, hrlen]
  · intro i hi0 hin
    rw [hmap, List.count_append]
    have h1 : r.count i = 1 := List.count_eq_one_of_mem hnodup (hmem i hin)
    have h2 : List.count i [0] = 0 := by
      simp [List.count_cons, beq_iff_eq]
      omega
    rw [h1, h2]
  · intro pr hpr
    obtain ⟨k, hk, rfl⟩ := buildState_pair_mem depot ps pr hpr
    have hp1 : (2 * k + 1) ∈ r := hmem _ (by omega)
    have hp2 : (2 * k + 2) ∈ r := hmem _ (by omega)
    rw [hmap, List.indexOf_append_of_mem hp1, List.indexOf_append_of_mem hp2]
    exact hprec _ hpr

theorem solve_route_correct_witness :
    ∃ out : Solution Nat,
      (buildState (0 : Nat) [(1, 2), (3, 4), (5, 6), (7, 8)]).solve
          (some [0, 1, 2, 3, 4, 5, 6, 7, 8]) = .ok (some out) ∧
      (out.route.map Stop.index).head? = some 0 ∧
      (out.route.map Stop.index).getLast? = some 0 ∧
      out.route.length
        = (buildState (0 : Nat) [(1, 2), (3, 4), (5, 6), (7, 8)]).locations.length + 1 ∧
      (∀ i, 0 < i →
        i < (buildState (0 : Nat) [(1, 2), (3, 4), (5, 6), (7, 8)]).locations.length →
        (out.route.map Stop.index).count i = 1) ∧
      ∀ pr ∈ (buildState (0 : Nat) [(1, 2), (3, 4), (5, 6), (7, 8)]).pickups_deliveries,
        (out.route.map Stop.index).indexOf pr.1
          < (out.route.map Stop.index).indexOf pr.2 :=
  solve_route_correct 0 [(1, 2), (3, 4), (5, 6), (7, 8)] (by decide)
    [0, 1, 2, 3, 4, 5, 6, 7, 8] (by decide)

end VRPSolver
